import Mathlib

/-!
Shallow embedding of the core of the `codetuner` repository (files
`app.py` and `main.py`): the AI task dispatchers (`TunnerSuite.run_ai` /
`AIWorker.run` in `app.py`, `FullFeatureIDE.refactor_code` /
`RefactorWorker.run` / `AIProviderFactory.create` in `main.py`) and the
git status engine (`GitManager` in `main.py`).

External effects (subprocess execution, network calls to AI providers,
environment variables, persisted settings) are modelled as explicit
oracle functions passed to the embedded operations; Qt signal emissions
are modelled as lists of emitted values returned by the operations.
Python strings are Lean `String`s; Python slicing, truthiness and
`str.strip` are modelled explicitly below.
-/

namespace CodeTuner

/-! ### Python string primitives -/

/-- Python's whitespace set for `str.strip()` (ASCII part: space, tab,
newline, carriage return, vertical tab, form feed). -/
def pyIsSpace (c : Char) : Bool :=
  c = ' ' || c = '\t' || c = '\n' || c = '\r' || c = '\x0B' || c = '\x0C'

/-- Python `str.strip()` on a character list: drop leading and trailing whitespace. -/
def pyStripList (l : List Char) : List Char :=
  ((l.dropWhile pyIsSpace).reverse.dropWhile pyIsSpace).reverse

/-- Python `s.strip()`. -/
def pyStrip (s : String) : String := ⟨pyStripList s.data⟩

/-- Python slice `s[:n]` (by code points). -/
def pySlice (s : String) (n : Nat) : String := ⟨s.data.take n⟩

/-- Python slice `s[n:]` (by code points). -/
def pyDrop (s : String) (n : Nat) : String := ⟨s.data.drop n⟩

/-- Python `len(s)` (code points). -/
def pyLen (s : String) : Nat := s.data.length

/-- Python truthiness of an optional string (`None` and `""` are falsy). -/
def pyTruthy (o : Option String) : Bool := o.getD "" ≠ ""

/-! ### Git model (`GitManager` in `main.py`)

The external `subprocess.run(['git'] + args, cwd=..., capture_output=True,
text=True, timeout=30)` call is an oracle `proc : List String → ProcResult`
mapping the git argument vector to either a completed process (return code,
stdout, stderr) or a raised exception (launch failure / timeout), whose
`str(e)` text is carried. -/

/-- Result of one `subprocess.run` invocation. -/
inductive ProcResult where
  | completed (returncode : Int) (stdout stderr : String)
  | raised (msg : String)
deriving DecidableEq

/-- Structured status snapshot: the four buckets built by
`GitManager.get_status`, in source order. -/
structure GitStatus where
  modified : List String
  added : List String
  deleted : List String
  untracked : List String
deriving DecidableEq

/-- A Qt signal emission from `GitManager`. -/
inductive Emission where
  | errorOccurred (msg : String)
  | statusUpdated (st : GitStatus)
  | outputReady (msg : String)
deriving DecidableEq

/-- Result of `GitManager.run_git_command`: the returned value
(`None` on any failure), the signal emissions, and whether
`subprocess.run` was invoked at all. -/
structure GitCallResult where
  output : Option String
  emits : List Emission
  invoked : Bool
deriving DecidableEq

/-- Embedding of `GitManager.run_git_command(args)`: fails fast when no repository
path is set; otherwise runs the process, returning stdout on exit code 0
and emitting stderr (or the exception text) on failure. -/
def runGitCommand (repo : Option String) (proc : List String → ProcResult)
    (args : List String) : GitCallResult :=
  match repo with
  | none => ⟨none, [.errorOccurred "No repository path set"], false⟩
  | some _ =>
    match proc args with
    | .raised m => ⟨none, [.errorOccurred m], true⟩
    | .completed rc out err =>
      if rc = 0 then ⟨some out, [], true⟩ else ⟨none, [.errorOccurred err], true⟩

/-- Body of the `for line in output.strip().split('\n')` loop of
`GitManager.get_status`: classify one porcelain line into a bucket by its
two-character code (`line[:2]`), taking the path from `line[3:]`;
unrecognized codes (and empty lines) leave the snapshot unchanged. -/
def processStatusLine (st : GitStatus) (line : String) : GitStatus :=
  if line = "" then st
  else
    let code := pySlice line 2
    let fp := pyDrop line 3
    if code = " M" ∨ code = "M " then { st with modified := st.modified ++ [fp] }
    else if code = "A " then { st with added := st.added ++ [fp] }
    else if code = "D " then { st with deleted := st.deleted ++ [fp] }
    else if code = "??" then { st with untracked := st.untracked ++ [fp] }
    else st

/-- The classification loop of `GitManager.get_status` over a list of
porcelain lines, starting from the empty snapshot. -/
def statusOfLines (lines : List String) : GitStatus :=
  lines.foldl processStatusLine ⟨[], [], [], []⟩

/-- The Python dict literal returned by `GitManager.get_status` on
success, as an association list in source key order. -/
def statusDict (st : GitStatus) : List (String × List String) :=
  [("modified", st.modified), ("added", st.added),
   ("deleted", st.deleted), ("untracked", st.untracked)]

/-- Embedding of `GitManager.get_status()`: runs `git status --porcelain`; on failure
returns the empty dict `{}` (emitting only what `run_git_command`
emitted); on success parses `output.strip().split('\n')`, emits the
snapshot on `status_updated` and returns the four-bucket dict. -/
def gitGetStatus (repo : Option String) (proc : List String → ProcResult) :
    List (String × List String) × List Emission :=
  let r := runGitCommand repo proc ["status", "--porcelain"]
  match r.output with
  | none => ([], r.emits)
  | some out =>
    let st := statusOfLines ((pyStrip out).splitOn "\n")
    (statusDict st, r.emits ++ [.statusUpdated st])

/-- The result expression of `GitManager.get_branch`:
`output.strip() if output else "unknown"` over the optional command
output (`None` on command failure). -/
def branchOfOutput (o : Option String) : String :=
  match o with
  | none => "unknown"
  | some s => if s = "" then "unknown" else pyStrip s

/-- Embedding of `GitManager.get_branch()` together with the emissions of its
underlying `run_git_command` call. -/
def gitGetBranchFull (repo : Option String) (proc : List String → ProcResult) :
    String × List Emission :=
  let r := runGitCommand repo proc ["branch", "--show-current"]
  (branchOfOutput r.output, r.emits)

/-- Embedding of `GitManager.get_branch()`. -/
def gitGetBranch (repo : Option String) (proc : List String → ProcResult) : String :=
  (gitGetBranchFull repo proc).fst

/-- Result of `GitManager.push` / `GitManager.pull`: the argument vector
passed to `run_git_command` and the emissions. -/
structure GitOpResult where
  argsUsed : List String
  emits : List Emission

/-- Embedding of `GitManager.push(remote='origin', branch=None)`: a `none` argument
stands for the Python default; a defaulted branch is obtained by calling
`get_branch()` at that point. -/
def gitPush (repo : Option String) (proc : List String → ProcResult)
    (remoteArg branchArg : Option String) : GitOpResult :=
  let remote := remoteArg.getD "origin"
  let branchEm :=
    match branchArg with
    | none => gitGetBranchFull repo proc
    | some b => (b, [])
  let branch := branchEm.fst
  let r := runGitCommand repo proc ["push", remote, branch]
  ⟨["push", remote, branch],
   branchEm.snd ++ r.emits ++
     (if r.output.isSome then
        [.outputReady ("Pushed to " ++ remote ++ "/" ++ branch)] else [])⟩

/-- Embedding of `GitManager.pull(remote='origin', branch=None)`: as `push`, and on
success additionally triggers a `get_status()` refresh. -/
def gitPull (repo : Option String) (proc : List String → ProcResult)
    (remoteArg branchArg : Option String) : GitOpResult :=
  let remote := remoteArg.getD "origin"
  let branchEm :=
    match branchArg with
    | none => gitGetBranchFull repo proc
    | some b => (b, [])
  let branch := branchEm.fst
  let r := runGitCommand repo proc ["pull", remote, branch]
  ⟨["pull", remote, branch],
   branchEm.snd ++ r.emits ++
     (if r.output.isSome then
        [.outputReady ("Pulled from " ++ remote ++ "/" ++ branch)] ++
          (gitGetStatus repo proc).snd
      else [])⟩

/-! ### AI dispatcher model

Provider SDK calls are oracles returning `Except String α`: a `.error e`
models a raised exception whose `str(e)` text is `e`. Qt signal
emissions of the worker threads (`finished` / `error`) are the returned
`Notif` list. -/

/-- A chat message (`{"role": ..., "content": ...}`). -/
structure Msg where
  role : String
  content : String
deriving DecidableEq

/-- One choice / content block of a provider response, exposing its text. -/
structure ContentBlock where
  text : String
deriving DecidableEq

/-- OpenAI-compatible chat-completion request (`client.chat.completions.create`).
`base_url` records the endpoint override the client was constructed with. -/
structure ChatRequest where
  model : String
  base_url : Option String
  messages : List Msg
deriving DecidableEq

/-- OpenAI-compatible response; each choice is its message. -/
structure ChatResponse where
  choices : List Msg
deriving DecidableEq

/-- Anthropic messages request (`client.messages.create`). -/
structure AnthropicRequest where
  model : String
  max_tokens : Nat
  messages : List Msg
deriving DecidableEq

/-- Anthropic response: a list of content blocks. -/
structure AnthropicResponse where
  content : List ContentBlock
deriving DecidableEq

/-- The three provider transports as oracles. -/
structure Apis where
  gemini : String → Except String String
  chat : ChatRequest → Except String ChatResponse
  anthropic : AnthropicRequest → Except String AnthropicResponse

/-- A worker-thread notification: the `finished` or `error` signal. -/
inductive Notif where
  | finished (text : String)
  | error (msg : String)
deriving DecidableEq

/-- Text of `str(IndexError())` raised by `[0]` on an empty list. -/
def indexErrMsg : String := "list index out of range"

/-- The `user` chat message wrapping a prompt. -/
def userMsg (s : String) : Msg := ⟨"user", s⟩

/-! #### `app.py` (`AIWorker`, `TunnerSuite`) -/

/-- System prompt of `AIWorker.run`, selected by mode (any mode other
than `"code"` takes the `else` branch in the source). -/
def sysPrompt (mode : String) : String :=
  if mode = "code" then "You are an Expert Software Architect."
  else "You are an Expert Professor and Tutor."

/-- User prompt of `AIWorker.run`: code mode truncates content to
20000 characters, the edu branch to 30000, each embedded in the exact
f-string template of the source. -/
def userPrompt (mode instruction content : String) : String :=
  if mode = "code" then
    "Instruction: " ++ instruction ++ "\n\nCode Context:\n" ++ pySlice content 20000
  else
    "\n            Instruction: " ++ instruction ++
    "\n\n            Source Material (Lecture/Notes):\n            " ++
    pySlice content 30000 ++
    "\n\n            Task: Explain clearly, summarize key points, or create a quiz as requested.\n            Output: Markdown formatted.\n            "

/-- `full_prompt = f"{sys_prompt}\n\n{user_prompt}"`. -/
def fullPrompt (mode instruction content : String) : String :=
  sysPrompt mode ++ "\n\n" ++ userPrompt mode instruction content

/-- The `base_urls` dict of `AIWorker.run` (`openai` maps to `None`). -/
def appBaseUrl (p : String) : Option String :=
  if p = "deepseek" then some "https://api.deepseek.com"
  else if p = "perplexity" then some "https://api.perplexity.ai"
  else none

/-- The chat-completion request built by `AIWorker.run` for the
openai/deepseek/perplexity branch. -/
def appChatRequest (modelId prompt provider : String) : ChatRequest :=
  ⟨modelId, appBaseUrl provider, [userMsg prompt]⟩

/-- The Anthropic request built by `AIWorker.run`: `max_tokens=4096`,
one user message. -/
def appAnthropicRequest (modelId prompt : String) : AnthropicRequest :=
  ⟨modelId, 4096, [userMsg prompt]⟩

/-- Embedding of `AIWorker.run`: builds the prompt, dispatches on the provider, emits
`finished` with the normalized text or `error` with the exception text.
A provider outside the branches leaves `response_text = ""` and still
emits `finished`. -/
def aiWorkerRun (apis : Apis) (provider modelId mode content instruction : String) :
    List Notif :=
  let fp := fullPrompt mode instruction content
  if provider = "gemini" then
    match apis.gemini fp with
    | .ok t => [.finished t]
    | .error e => [.error e]
  else if provider = "openai" ∨ provider = "deepseek" ∨ provider = "perplexity" then
    match apis.chat (appChatRequest modelId fp provider) with
    | .ok resp =>
      match resp.choices with
      | [] => [.error indexErrMsg]
      | c :: _ => [.finished c.content]
    | .error e => [.error e]
  else if provider = "anthropic" then
    match apis.anthropic (appAnthropicRequest modelId fp) with
    | .ok resp =>
      match resp.content with
      | [] => [.error indexErrMsg]
      | b :: _ => [.finished b.text]
    | .error e => [.error e]
  else [.finished ""]

/-- The `MODELS_CONFIG` registry of `app.py`: display name to (provider, model id). -/
def appModelsConfig (name : String) : Option (String × String) :=
  if name = "Google: Gemini 2.5 Flash" then some ("gemini", "gemini-2.5-flash")
  else if name = "Google: Gemini 3 Pro" then some ("gemini", "gemini-3-pro-preview")
  else if name = "OpenAI: GPT-5.1" then some ("openai", "gpt-5.1")
  else if name = "OpenAI: GPT-4o" then some ("openai", "gpt-4o")
  else if name = "Anthropic: Claude 3.5 Sonnet" then some ("anthropic", "claude-3-5-sonnet-20241022")
  else if name = "DeepSeek: V3" then some ("deepseek", "deepseek-chat")
  else if name = "Perplexity: Sonar Large" then some ("perplexity", "sonar-reasoning-pro")
  else none

/-- Embedding of `TunnerSuite.get_keys` for one provider: the persisted settings
value (`""` when absent) wins when truthy, else the environment variable
(`none` when unset, as `os.getenv`). -/
def appGetKeys (settings : String → String) (env : String → Option String)
    (p : String) : Option String :=
  let v := settings (p ++ "_key")
  if v ≠ "" then some v else env (p.toUpper ++ "_API_KEY")

/-- Synchronous outcome of `TunnerSuite.run_ai`. -/
inductive RunAiOutcome where
  | warned (title msg : String)
  | modelKeyError
  | openedSettings
  | started (provider modelId mode content instruction : String)
deriving DecidableEq

/-- Embedding of `TunnerSuite.run_ai`: rejects whitespace-only content with a warning
box and returns; with a missing credential opens the settings dialog and
returns; otherwise starts the `AIWorker` thread. -/
def runAi (settings : String → String) (env : String → Option String)
    (mode modelName content instruction : String) : RunAiOutcome :=
  if pyStrip content = "" then .warned "Empty" "Please select a file first."
  else
    match appModelsConfig modelName with
    | none => .modelKeyError
    | some info =>
      if pyTruthy (appGetKeys settings env info.fst) then
        .started info.fst info.snd mode content instruction
      else .openedSettings

/-- The asynchronous notifications eventually delivered for one
`run_ai` call: only a started worker produces any. -/
def runAiNotifs (apis : Apis) (o : RunAiOutcome) : List Notif :=
  match o with
  | .started p mid mode c i => aiWorkerRun apis p mid mode c i
  | _ => []

/-! #### `main.py` (`ConfigManager`, `AIProviderFactory`, `RefactorWorker`) -/

/-- Embedding of `ConfigManager.get_key`: the environment variable
`<PROVIDER>_API_KEY` wins when truthy, else the persisted settings value
(`""` when absent); may return `""` when neither resolves. -/
def configGetKey (env : String → Option String) (settings : String → String)
    (p : String) : String :=
  match env (p.toUpper ++ "_API_KEY") with
  | some k => if k = "" then settings p else k
  | none => settings p

/-- The registry `AIProviderFactory.MODELS`: display name to (type, wire model). -/
def factoryModels (name : String) : Option (String × String) :=
  if name = "Gemini 2.0 Flash" then some ("gemini", "gemini-2.0-flash-exp")
  else if name = "GPT-4o" then some ("openai", "gpt-4o")
  else if name = "Claude 3.5 Sonnet" then some ("anthropic", "claude-3-5-sonnet-latest")
  else none

/-- Embedding of `AIProviderFactory.create`: raises `"Model Not Found"` for an
unknown name and `"Missing API Key for <type>"` for a falsy key;
otherwise yields the backend, identified here by its (type, model)
configuration. -/
def factoryCreate (env : String → Option String) (settings : String → String)
    (name : String) : Except String (String × String) :=
  match factoryModels name with
  | none => .error "Model Not Found"
  | some conf =>
    if configGetKey env settings conf.fst = "" then
      .error ("Missing API Key for " ++ conf.fst)
    else .ok conf

/-- The refactor prompt template of `RefactorWorker.run`. -/
def refactorPrompt (lang code : String) : String :=
  "Refactor this " ++ lang ++ " code:\n\n```" ++ lang ++ "\n" ++ code ++
  "\n```\n\nProvide:\n1. Summary\n2. Complete refactored code\n3. Key improvements"

/-- The chat-completion request built by `RefactorWorker.run` for the
openai branch (client constructed with no base-url override). -/
def refactorChatRequest (modelId prompt : String) : ChatRequest :=
  ⟨modelId, none, [userMsg prompt]⟩

/-- The Anthropic request built by `RefactorWorker.run`:
`max_tokens=8192`, one user message. -/
def refactorAnthropicRequest (modelId prompt : String) : AnthropicRequest :=
  ⟨modelId, 8192, [userMsg prompt]⟩

/-- Embedding of `RefactorWorker.run` (the body of the background thread): creates
the backend — whose failure, including a missing credential, is caught
here and emitted as `error` — then performs the provider call and emits
the normalized result. -/
def refactorWorkerRun (env : String → Option String) (settings : String → String)
    (apis : Apis) (modelName code lang : String) : List Notif :=
  match factoryCreate env settings modelName with
  | .error e => [.error e]
  | .ok conf =>
    let prompt := refactorPrompt lang code
    if conf.fst = "gemini" then
      match apis.gemini prompt with
      | .ok t => [.finished t]
      | .error e => [.error e]
    else if conf.fst = "openai" then
      match apis.chat (refactorChatRequest conf.snd prompt) with
      | .ok resp =>
        match resp.choices with
        | [] => [.error indexErrMsg]
        | c :: _ => [.finished c.content]
      | .error e => [.error e]
    else if conf.fst = "anthropic" then
      match apis.anthropic (refactorAnthropicRequest conf.snd prompt) with
      | .ok resp =>
        match resp.content with
        | [] => [.error indexErrMsg]
        | b :: _ => [.finished b.text]
      | .error e => [.error e]
    else []

/-- Embedding of `FullFeatureIDE.refactor_code` (the refactor dispatcher's submit):
rejects whitespace-only code without starting a worker; otherwise starts
the `RefactorWorker` thread on the stripped code. Returns whether the
background thread was started and the notifications it delivers. -/
def refactorSubmit (env : String → Option String) (settings : String → String)
    (apis : Apis) (modelName rawCode lang : String) : Bool × List Notif :=
  if pyStrip rawCode = "" then (false, [])
  else (true, refactorWorkerRun env settings apis modelName (pyStrip rawCode) lang)

/-! ### Shared concrete oracles and helper lemmas -/

/-- A transport oracle on which every provider call raises. -/
def noApis : Apis :=
  ⟨fun _ => .error "network unreachable",
   fun _ => .error "network unreachable",
   fun _ => .error "network unreachable"⟩

/-- A transport oracle whose Anthropic endpoint answers with one content
block of text `"RESPONSE"`. -/
def okAnthropicApis : Apis :=
  ⟨fun _ => .error "network unreachable",
   fun _ => .error "network unreachable",
   fun _ => .ok ⟨[⟨"RESPONSE"⟩]⟩⟩

/-- A process oracle on which `subprocess.run` raises. -/
def procRaisedBoom : List String → ProcResult := fun _ => .raised "boom"

/-- A process oracle whose command succeeds with one porcelain line. -/
def procStatusOneLine : List String → ProcResult :=
  fun _ => .completed 0 " M a.txt\n" ""

/-- A process oracle whose command succeeds with output `"unknown\n"`
(e.g. the current branch is literally named `unknown`). -/
def procBranchUnknown : List String → ProcResult :=
  fun _ => .completed 0 "unknown\n" ""

/-- Unfolding equation for `gitGetStatus` in terms of its underlying
`run_git_command` call. -/
lemma gitGetStatus_eq (repo : Option String) (proc : List String → ProcResult) :
    gitGetStatus repo proc =
      match (runGitCommand repo proc ["status", "--porcelain"]).output with
      | none => ([], (runGitCommand repo proc ["status", "--porcelain"]).emits)
      | some out =>
        (statusDict (statusOfLines ((pyStrip out).splitOn "\n")),
         (runGitCommand repo proc ["status", "--porcelain"]).emits ++
           [.statusUpdated (statusOfLines ((pyStrip out).splitOn "\n"))]) := rfl

/-- `run_git_command` itself never emits `status_updated`. -/
lemma runGitCommand_no_statusUpdated (repo : Option String)
    (proc : List String → ProcResult) (args : List String) (st : GitStatus) :
    Emission.statusUpdated st ∉ (runGitCommand repo proc args).emits := by
  rcases repo with _ | p
  · simp [runGitCommand]
  · rcases hp : proc args with ⟨rc, out, err⟩ | m
    · by_cases h0 : rc = 0 <;> simp [runGitCommand, hp, h0]
    · simp [runGitCommand, hp]

/-! ### Claims -/

/-- C1: for every content string and every mode, the user prompt built by
`AIWorker.run` embeds exactly the Python slice `content[:N]` between
fixed text (N = 20000 in code mode, N = 30000 in the edu branch), that
slice never exceeds N characters, and content of length at most N is
included whole and unchanged. -/
theorem c1_prompt_truncation (instruction content : String) :
    (userPrompt "code" instruction content =
      "Instruction: " ++ instruction ++ "\n\nCode Context:\n" ++
        pySlice content 20000) ∧
    (∀ mode, mode ≠ "code" →
      userPrompt mode instruction content =
        "\n            Instruction: " ++ instruction ++
        "\n\n            Source Material (Lecture/Notes):\n            " ++
        pySlice content 30000 ++
        "\n\n            Task: Explain clearly, summarize key points, or create a quiz as requested.\n            Output: Markdown formatted.\n            ") ∧
    pyLen (pySlice content 20000) ≤ 20000 ∧
    pyLen (pySlice content 30000) ≤ 30000 ∧
    (pyLen content ≤ 20000 → pySlice content 20000 = content) ∧
    (pyLen content ≤ 30000 → pySlice content 30000 = content) := by
  refine ⟨by simp [userPrompt], fun mode hm => by simp [userPrompt, hm], ?_, ?_, ?_, ?_⟩
  · simp [pyLen, pySlice, List.length_take]
  · simp [pyLen, pySlice, List.length_take]
  · intro h
    cases content with
    | mk data => exact congrArg String.mk (List.take_of_length_le h)
  · intro h
    cases content with
    | mk data => exact congrArg String.mk (List.take_of_length_le h)

/-- Witness for C1 at concrete inputs: the edu branch at mode `"edu"`,
and whole-content inclusion for a short content string. -/
theorem c1_prompt_truncation_witness :
    ("edu" : String) ≠ "code" ∧
    userPrompt "edu" "Summarize" "abc" =
      "\n            Instruction: " ++ "Summarize" ++
      "\n\n            Source Material (Lecture/Notes):\n            " ++
      pySlice "abc" 30000 ++
      "\n\n            Task: Explain clearly, summarize key points, or create a quiz as requested.\n            Output: Markdown formatted.\n            " ∧
    pyLen "abc" ≤ 20000 ∧ pySlice "abc" 20000 = "abc" :=
  ⟨by decide,
   (c1_prompt_truncation "Summarize" "abc").2.1 "edu" (by decide),
   by decide,
   (c1_prompt_truncation "Summarize" "abc").2.2.2.2.1 (by decide)⟩

/-- C2: each porcelain line is classified by its two-character code
`line[:2]` into exactly one bucket, receiving the path `line[3:]`
(` M`/`M ` → modified, `A ` → added, `D ` → deleted, `??` → untracked);
a line with any other code changes no bucket and the classifier is total
(no error); processing a list handles each line once in order; and the
concrete scenario yields `modified=[a.txt], untracked=[b.txt],
added=[c.txt], deleted=[d.txt]`. -/
theorem c2_status_classification :
    (∀ (st : GitStatus) (line : String), line ≠ "" →
      ((pySlice line 2 = " M" ∨ pySlice line 2 = "M ") →
        processStatusLine st line =
          { st with modified := st.modified ++ [pyDrop line 3] }) ∧
      (pySlice line 2 = "A " →
        processStatusLine st line =
          { st with added := st.added ++ [pyDrop line 3] }) ∧
      (pySlice line 2 = "D " →
        processStatusLine st line =
          { st with deleted := st.deleted ++ [pyDrop line 3] }) ∧
      (pySlice line 2 = "??" →
        processStatusLine st line =
          { st with untracked := st.untracked ++ [pyDrop line 3] }) ∧
      (¬(pySlice line 2 = " M" ∨ pySlice line 2 = "M ") →
        pySlice line 2 ≠ "A " → pySlice line 2 ≠ "D " → pySlice line 2 ≠ "??" →
        processStatusLine st line = st)) ∧
    (∀ (lines : List String) (line : String),
      statusOfLines (lines ++ [line]) =
        processStatusLine (statusOfLines lines) line) ∧
    statusOfLines [" M a.txt", "?? b.txt", "A  c.txt", "D  d.txt"] =
      ⟨["a.txt"], ["c.txt"], ["d.txt"], ["b.txt"]⟩ := by
  refine ⟨fun st line h0 => ⟨?_, ?_, ?_, ?_, ?_⟩, ?_, by decide⟩
  · intro h; rcases h with h | h <;> simp [processStatusLine, h0, h]
  · intro h; simp [processStatusLine, h0, h]
  · intro h; simp [processStatusLine, h0, h]
  · intro h; simp [processStatusLine, h0, h]
  · intro h1 h2 h3 h4
    simp [processStatusLine, h0, h2, h3, h4]
    intro h; exact absurd h h1
  · intro lines line; simp [statusOfLines, List.foldl_append]

/-- Witness for C2: one modified line and one unrecognized line, each
classified via the theorem at concrete inputs. -/
theorem c2_status_classification_witness :
    processStatusLine ⟨[], [], [], []⟩ " M a.txt" =
      { modified := ([] : List String) ++ [pyDrop " M a.txt" 3], added := [],
        deleted := [], untracked := [] } ∧
    processStatusLine ⟨["x"], [], [], []⟩ "XY z.txt" = ⟨["x"], [], [], []⟩ :=
  ⟨(c2_status_classification.1 ⟨[], [], [], []⟩ " M a.txt" (by decide)).1
      (Or.inl (by decide)),
   (c2_status_classification.1 ⟨["x"], [], [], []⟩ "XY z.txt" (by decide)).2.2.2.2
      (by decide) (by decide) (by decide) (by decide)⟩

/-- C7: with no repository root configured, `run_git_command` emits the
"no root configured" error ("No repository path set"), returns the
absent result `None`, and never invokes `subprocess.run` (so no external
process is spawned and no default working directory is used). -/
theorem c7_no_root_fails_fast (proc : List String → ProcResult) (args : List String) :
    runGitCommand none proc args =
      ⟨none, [.errorOccurred "No repository path set"], false⟩ := rfl

/-- C8: a `push`/`pull` call with no arguments supplied uses remote
"origin" and the branch computed by `get_branch()` on the process oracle
in force at that very call (so the value is fresh, not cached), while
explicitly supplied remotes and branches are used unchanged. -/
theorem c8_push_pull_defaults (repo : Option String) (proc : List String → ProcResult) :
    (gitPush repo proc none none).argsUsed =
      ["push", "origin", gitGetBranch repo proc] ∧
    (gitPull repo proc none none).argsUsed =
      ["pull", "origin", gitGetBranch repo proc] ∧
    (∀ r b, (gitPush repo proc (some r) (some b)).argsUsed = ["push", r, b]) ∧
    (∀ r b, (gitPull repo proc (some r) (some b)).argsUsed = ["pull", r, b]) :=
  ⟨rfl, rfl, fun _ _ => rfl, fun _ _ => rfl⟩

/-- C4, counterexample: when the branch command succeeds with the
non-empty output `"unknown\n"` (a branch literally named `unknown`),
`get_branch` returns the sentinel `"unknown"` — so the sentinel is not
returned only for empty output, refuting the claim's "if and only if". -/
theorem c4_branch_sentinel_counterexample :
    gitGetBranch (some "/repo") procBranchUnknown = "unknown" ∧
    (runGitCommand (some "/repo") procBranchUnknown
        ["branch", "--show-current"]).output = some "unknown\n" ∧
    ("unknown\n" : String) ≠ "" := by
  refine ⟨by decide, rfl, by decide⟩

/-- C4, amended: `get_branch` returns the sentinel `"unknown"` when the
underlying command fails (`None`) or produces empty output, and for
every non-empty output returns that output stripped of surrounding
whitespace — which coincides with the sentinel exactly when the
stripped output is itself the string `unknown`. -/
theorem c4_branch_sentinel_amended (repo : Option String)
    (proc : List String → ProcResult) :
    gitGetBranch repo proc =
      branchOfOutput (runGitCommand repo proc ["branch", "--show-current"]).output ∧
    branchOfOutput none = "unknown" ∧
    branchOfOutput (some "") = "unknown" ∧
    (∀ s : String, s ≠ "" → branchOfOutput (some s) = pyStrip s) :=
  ⟨rfl, rfl, rfl, fun s h => by simp [branchOfOutput, h]⟩

/-- Witness for the amended C4: a concrete non-empty output is returned
stripped. -/
theorem c4_branch_sentinel_amended_witness :
    branchOfOutput (some "main\n") = pyStrip "main\n" :=
  (c4_branch_sentinel_amended none procRaisedBoom).2.2.2 "main\n" (by decide)

/-- C5: submitting with whitespace-only content makes `run_ai` return
synchronously with the "Empty" warning (the `EmptyInput` condition), no
`AIWorker` thread is started, and the task delivers no asynchronous
success or error notification whatsoever. -/
theorem c5_empty_input (settings : String → String) (env : String → Option String)
    (mode modelName content instruction : String) (apis : Apis)
    (h : pyStrip content = "") :
    runAi settings env mode modelName content instruction =
      .warned "Empty" "Please select a file first." ∧
    (∀ p mid m c i, runAi settings env mode modelName content instruction ≠
      .started p mid m c i) ∧
    runAiNotifs apis (runAi settings env mode modelName content instruction) = [] := by
  refine ⟨by simp [runAi, h], ?_, by simp [runAi, runAiNotifs, h]⟩
  intro p mid m c i
  simp [runAi, h]

/-- Witness for C5 at a concrete whitespace-only content. -/
theorem c5_empty_input_witness :
    runAi (fun _ => "") (fun _ => none) "code" "OpenAI: GPT-4o" "  \n " "Refactor" =
      .warned "Empty" "Please select a file first." ∧
    (∀ p mid m c i,
      runAi (fun _ => "") (fun _ => none) "code" "OpenAI: GPT-4o" "  \n " "Refactor" ≠
        .started p mid m c i) ∧
    runAiNotifs noApis
      (runAi (fun _ => "") (fun _ => none) "code" "OpenAI: GPT-4o" "  \n " "Refactor") = [] :=
  c5_empty_input (fun _ => "") (fun _ => none) "code" "OpenAI: GPT-4o" "  \n "
    "Refactor" noApis (by decide)

/-- C10: when the status command fails (no configured root, launch
failure, or non-zero exit — all the cases with `output = None`),
`get_status` returns the empty dict with none of the four bucket keys
and emits no `status_updated` signal; the four-bucket snapshot is built
and emitted exactly when the command succeeds. -/
theorem c10_status_failure_empty (repo : Option String)
    (proc : List String → ProcResult) :
    ((runGitCommand repo proc ["status", "--porcelain"]).output = none →
      (gitGetStatus repo proc).fst = [] ∧
      ∀ st, Emission.statusUpdated st ∉ (gitGetStatus repo proc).snd) ∧
    (∀ out, (runGitCommand repo proc ["status", "--porcelain"]).output = some out →
      gitGetStatus repo proc =
        (statusDict (statusOfLines ((pyStrip out).splitOn "\n")),
         (runGitCommand repo proc ["status", "--porcelain"]).emits ++
           [.statusUpdated (statusOfLines ((pyStrip out).splitOn "\n"))])) := by
  constructor
  · intro h
    rw [gitGetStatus_eq repo proc, h]
    exact ⟨rfl, fun st => runGitCommand_no_statusUpdated repo proc _ st⟩
  · intro out h
    rw [gitGetStatus_eq repo proc, h]

/-- Witness for C10: a failing invocation (no root) yields the empty
dict and no status emission; a succeeding one yields the snapshot. -/
theorem c10_status_failure_empty_witness :
    ((gitGetStatus none procRaisedBoom).fst = [] ∧
      ∀ st, Emission.statusUpdated st ∉ (gitGetStatus none procRaisedBoom).snd) ∧
    gitGetStatus (some "/r") procStatusOneLine =
      (statusDict (statusOfLines ((pyStrip " M a.txt\n").splitOn "\n")),
       (runGitCommand (some "/r") procStatusOneLine ["status", "--porcelain"]).emits ++
         [.statusUpdated (statusOfLines ((pyStrip " M a.txt\n").splitOn "\n"))]) :=
  ⟨(c10_status_failure_empty none procRaisedBoom).1 rfl,
   (c10_status_failure_empty (some "/r") procStatusOneLine).2 " M a.txt\n" rfl⟩

/-- C3, counterexample: in the refactor dispatcher, submitting non-empty
code for a provider with no resolvable credential (environment and
settings both empty) DOES start the background worker thread — the
missing-credential check runs inside `RefactorWorker.run`, which then
delivers the failure asynchronously — refuting "no background thread is
started". -/
theorem c3_missing_credential_counterexample :
    (refactorSubmit (fun _ => none) (fun _ => "") noApis
        "Claude 3.5 Sonnet" "x = 1" "Python").fst = true ∧
    (refactorSubmit (fun _ => none) (fun _ => "") noApis
        "Claude 3.5 Sonnet" "x = 1" "Python").snd =
      [.error "Missing API Key for anthropic"] := by
  exact ⟨rfl, rfl⟩

/-- C3, amended: with no resolvable credential, the simple dispatcher
(`run_ai`) fails synchronously without starting a worker — but by
opening the settings dialog, not by emitting an error — while the
refactor dispatcher starts the background thread unconditionally for
non-empty code and the missing credential surfaces asynchronously as
exactly one error notification "Missing API Key for <provider>". -/
theorem c3_missing_credential_amended :
    (∀ (settings : String → String) (env : String → Option String)
       (mode modelName content instruction provider modelId : String),
      pyStrip content ≠ "" →
      appModelsConfig modelName = some (provider, modelId) →
      pyTruthy (appGetKeys settings env provider) = false →
      runAi settings env mode modelName content instruction = .openedSettings) ∧
    (∀ (env : String → Option String) (settings : String → String) (apis : Apis)
       (modelName rawCode lang ptype pmodel : String),
      factoryModels modelName = some (ptype, pmodel) →
      configGetKey env settings ptype = "" →
      pyStrip rawCode ≠ "" →
      refactorSubmit env settings apis modelName rawCode lang =
        (true, [.error ("Missing API Key for " ++ ptype)])) := by
  constructor
  · intro settings env mode modelName content instruction provider modelId h1 h2 h3
    simp [runAi, h1, h2, h3]
  · intro env settings apis modelName rawCode lang ptype pmodel h1 h2 h3
    simp [refactorSubmit, refactorWorkerRun, factoryCreate, h1, h2, h3]

/-- Witness for the amended C3 at concrete inputs on both dispatchers. -/
theorem c3_missing_credential_amended_witness :
    runAi (fun _ => "") (fun _ => none) "code" "OpenAI: GPT-4o" "print(1)" "fix" =
      .openedSettings ∧
    refactorSubmit (fun _ => none) (fun _ => "") noApis
        "Gemini 2.0 Flash" "y = 2" "Python" =
      (true, [.error ("Missing API Key for " ++ "gemini")]) :=
  ⟨c3_missing_credential_amended.1 (fun _ => "") (fun _ => none) "code"
      "OpenAI: GPT-4o" "print(1)" "fix" "openai" "gpt-4o"
      (by decide) (by decide) (by decide),
   c3_missing_credential_amended.2 (fun _ => none) (fun _ => "") noApis
      "Gemini 2.0 Flash" "y = 2" "Python" "gemini" "gemini-2.0-flash-exp"
      (by decide) rfl (by decide)⟩

/-- C6: whenever request construction (`AIProviderFactory.create`) or
the provider transport raises, the submitted task delivers exactly one
`error` notification carrying the exception text verbatim and no
`finished` notification — in every provider branch of both workers —
and both dispatchers, being stateless guards, accept a fresh submission
afterwards (a valid resubmission starts a worker again). -/
theorem c6_transport_error_single_notification :
    (∀ (apis : Apis) (modelId mode content instruction e : String),
      apis.gemini (fullPrompt mode instruction content) = .error e →
      aiWorkerRun apis "gemini" modelId mode content instruction = [.error e]) ∧
    (∀ (apis : Apis) (provider modelId mode content instruction e : String),
      (provider = "openai" ∨ provider = "deepseek" ∨ provider = "perplexity") →
      apis.chat (appChatRequest modelId (fullPrompt mode instruction content)
          provider) = .error e →
      aiWorkerRun apis provider modelId mode content instruction = [.error e]) ∧
    (∀ (apis : Apis) (modelId mode content instruction e : String),
      apis.anthropic (appAnthropicRequest modelId
          (fullPrompt mode instruction content)) = .error e →
      aiWorkerRun apis "anthropic" modelId mode content instruction = [.error e]) ∧
    (∀ (env : String → Option String) (settings : String → String) (apis : Apis)
       (modelName code lang e : String),
      factoryCreate env settings modelName = .error e →
      refactorWorkerRun env settings apis modelName code lang = [.error e]) ∧
    (∀ (env : String → Option String) (settings : String → String) (apis : Apis)
       (modelName code lang pmodel e : String),
      factoryCreate env settings modelName = .ok ("gemini", pmodel) →
      apis.gemini (refactorPrompt lang code) = .error e →
      refactorWorkerRun env settings apis modelName code lang = [.error e]) ∧
    (∀ (env : String → Option String) (settings : String → String) (apis : Apis)
       (modelName code lang pmodel e : String),
      factoryCreate env settings modelName = .ok ("openai", pmodel) →
      apis.chat (refactorChatRequest pmodel (refactorPrompt lang code)) = .error e →
      refactorWorkerRun env settings apis modelName code lang = [.error e]) ∧
    (∀ (env : String → Option String) (settings : String → String) (apis : Apis)
       (modelName code lang pmodel e : String),
      factoryCreate env settings modelName = .ok ("anthropic", pmodel) →
      apis.anthropic (refactorAnthropicRequest pmodel (refactorPrompt lang code)) =
        .error e →
      refactorWorkerRun env settings apis modelName code lang = [.error e]) ∧
    (∀ (settings : String → String) (env : String → Option String)
       (mode modelName content instruction provider modelId : String),
      pyStrip content ≠ "" →
      appModelsConfig modelName = some (provider, modelId) →
      pyTruthy (appGetKeys settings env provider) = true →
      runAi settings env mode modelName content instruction =
        .started provider modelId mode content instruction) ∧
    (∀ (env : String → Option String) (settings : String → String) (apis : Apis)
       (modelName rawCode lang : String),
      pyStrip rawCode ≠ "" →
      (refactorSubmit env settings apis modelName rawCode lang).fst = true) := by
  refine ⟨?_, ?_, ?_, ?_, ?_, ?_, ?_, ?_, ?_⟩
  · intro apis modelId mode content instruction e h
    simp [aiWorkerRun, h]
  · intro apis provider modelId mode content instruction e hp h
    rcases hp with rfl | rfl | rfl <;> simp_all [aiWorkerRun]
  · intro apis modelId mode content instruction e h
    simp [aiWorkerRun, h]
  · intro env settings apis modelName code lang e h
    simp [refactorWorkerRun, h]
  · intro env settings apis modelName code lang pmodel e h1 h2
    simp [refactorWorkerRun, h1, h2]
  · intro env settings apis modelName code lang pmodel e h1 h2
    simp [refactorWorkerRun, h1, h2]
  · intro env settings apis modelName code lang pmodel e h1 h2
    simp [refactorWorkerRun, h1, h2]
  · intro settings env mode modelName content instruction provider modelId h1 h2 h3
    simp [runAi, h1, h2, h3]
  · intro env settings apis modelName rawCode lang h
    simp [refactorSubmit, h]

/-- Witness for C6: a concrete failing transport yields the single
verbatim error, and a concrete valid submission is accepted afterwards. -/
theorem c6_transport_error_single_notification_witness :
    aiWorkerRun noApis "gemini" "gemini-2.5-flash" "code" "x = 1" "fix" =
      [.error "network unreachable"] ∧
    runAi (fun _ => "sk-key") (fun _ => none) "code" "OpenAI: GPT-4o" "x = 1" "fix" =
      .started "openai" "gpt-4o" "code" "x = 1" "fix" :=
  ⟨c6_transport_error_single_notification.1 noApis "gemini-2.5-flash" "code"
      "x = 1" "fix" "network unreachable" rfl,
   c6_transport_error_single_notification.2.2.2.2.2.2.2.1 (fun _ => "sk-key")
      (fun _ => none) "code" "OpenAI: GPT-4o" "x = 1" "fix" "openai" "gpt-4o"
      (by decide) (by decide) (by decide)⟩

/-- C9: the Anthropic (Family C) request carries exactly one message —
the user message holding the full prompt — plus the fixed max-token
ceiling, 4096 in the `app.py` worker and 8192 in the `main.py` refactor
worker; and on success each worker emits the first content block's text. -/
theorem c9_family_c_shape :
    (∀ modelId prompt,
      (appAnthropicRequest modelId prompt).max_tokens = 4096 ∧
      (appAnthropicRequest modelId prompt).messages = [userMsg prompt]) ∧
    (∀ modelId prompt,
      (refactorAnthropicRequest modelId prompt).max_tokens = 8192 ∧
      (refactorAnthropicRequest modelId prompt).messages = [userMsg prompt]) ∧
    (∀ (apis : Apis) (modelId mode content instruction : String)
       (resp : AnthropicResponse) (b : ContentBlock) (rest : List ContentBlock),
      apis.anthropic (appAnthropicRequest modelId
          (fullPrompt mode instruction content)) = .ok resp →
      resp.content = b :: rest →
      aiWorkerRun apis "anthropic" modelId mode content instruction =
        [.finished b.text]) ∧
    (∀ (env : String → Option String) (settings : String → String) (apis : Apis)
       (modelName code lang pmodel : String) (resp : AnthropicResponse)
       (b : ContentBlock) (rest : List ContentBlock),
      factoryCreate env settings modelName = .ok ("anthropic", pmodel) →
      apis.anthropic (refactorAnthropicRequest pmodel (refactorPrompt lang code)) =
        .ok resp →
      resp.content = b :: rest →
      refactorWorkerRun env settings apis modelName code lang =
        [.finished b.text]) := by
  refine ⟨fun modelId prompt => ⟨rfl, rfl⟩, fun modelId prompt => ⟨rfl, rfl⟩, ?_, ?_⟩
  · intro apis modelId mode content instruction resp b rest h1 h2
    simp [aiWorkerRun, h1, h2]
  · intro env settings apis modelName code lang pmodel resp b rest h1 h2 h3
    simp [refactorWorkerRun, h1, h2, h3]

/-- Witness for C9: a concrete successful Anthropic call emits the first
content block's text. -/
theorem c9_family_c_shape_witness :
    aiWorkerRun okAnthropicApis "anthropic" "claude-3-5-sonnet-20241022"
      "code" "x = 1" "fix" = [.finished "RESPONSE"] :=
  c9_family_c_shape.2.2.1 okAnthropicApis "claude-3-5-sonnet-20241022" "code"
    "x = 1" "fix" ⟨[⟨"RESPONSE"⟩]⟩ ⟨"RESPONSE"⟩ [] rfl rfl

end CodeTuner
